import Mathlib

/-
Verification development for the chaos-experiment scripts.

Each experiment entry point (block_network_access, aks_zone_down,
aks_container_network_partition, postgres_failover, aks_kill_pods) is a
sequential Python function that issues shell commands against an external
control plane through a one-line subprocess wrapper returning
(output, return_code).  The embedding below models that external control
plane as an environment record: one field per call site, holding the
(output, return_code) pair (or parse result) that the external world would
answer with.  Each experiment function is translated statement by statement
into a total Lean function from its environment and arguments to a run
record: the boolean the Python function returns, plus the list of mutating
commands it issued, each tagged with the virtual wall-clock instant (in
seconds) at which it was issued (the clock starts at 0 and advances only at
time.sleep).  Read-only discovery and preflight calls are modelled by
consulting the environment; only state-changing commands are recorded in
the trace.  Python exceptions that can be raised inside the try block of a function
block (tuple-unpack failures, ValueError from list.remove, JSON decode
errors) are modelled as the explicit Outcome.exc value, which the final
except handler maps to the boolean False, exactly as in the source.
-/

set_option linter.unusedVariables false

namespace Chaos

/-- One control-plane gateway response: the raw textual output and the
integer exit status of the external command, as returned by the
run_command / run_azure_cli wrapper. -/
structure Resp where
  out : String
  code : Int
deriving DecidableEq

/-- Outcome of the body of a Python experiment function: a normal boolean
return, or an exception raised inside the try block. -/
inductive Outcome where
  | ok (b : Bool)
  | exc
deriving DecidableEq

/-- The boolean the caller sees: the trailing except handler of every
experiment function turns any exception into a False return. -/
def Outcome.toBool : Outcome → Bool
  | .ok b => b
  | .exc => false

/-- Model of Python single-character str.split: splits on every occurrence
of the separator, keeping empty fragments, and returns [""] on the empty
string. Defined on the character list so it reduces in the kernel. -/
def splitCharList (sep : Char) : List Char → List (List Char)
  | [] => [[]]
  | c :: cs =>
    let r := splitCharList sep cs
    if c = sep then [] :: r
    else
      match r with
      | [] => [[c]]
      | g :: gs => (c :: g) :: gs

/-- Python str.split(sep) for a one-character separator. -/
def pySplit (sep : Char) (s : String) : List String :=
  (splitCharList sep s.data).map (fun l => ⟨l⟩)

/-- Python str.strip(): remove leading and trailing whitespace. -/
def pyStrip (s : String) : String :=
  ⟨((s.data.dropWhile Char.isWhitespace).reverse.dropWhile Char.isWhitespace).reverse⟩

/-- Python list.remove: removes the first occurrence of x, raising
ValueError (modelled as Except.error) when x is absent. -/
def pyRemove (l : List String) (x : String) : Except Unit (List String) :=
  if x ∈ l then .ok (l.erase x) else .error ()

/- ----------------------------------------------------------------
block_network_access (src/tests/block_network_access.py)
---------------------------------------------------------------- -/

/-- Mutating az commands issued by block_network_access.  The read-only
subnet show queries (NSG id lookup, address range lookups) are modelled by
consulting the environment and are not trace events. -/
inductive BNACmd where
  | createNsg (name : String)
  | associateNsg (name : String)
  | createRule (nsg rule srcAddr dstAddr : String)
  | deleteRule (nsg rule : String)
  | disassociateNsg
  | deleteNsg (name : String)
deriving DecidableEq

/-- External-world responses for each az call site of block_network_access,
in source order: the NSG id query on the source subnet, NSG create, NSG
associate, the two subnet address range queries, rule create, rule delete,
NSG disassociate, NSG delete. -/
structure BNAEnv where
  getNsg : Resp
  createNsgCode : Int
  associateCode : Int
  showSrcAddr : Resp
  showDstAddr : Resp
  createRuleCode : Int
  deleteRuleCode : Int
  disassociateCode : Int
  deleteNsgCode : Int

/-- A run of block_network_access: the returned boolean and the timed trace
of mutating commands. -/
structure BNARun where
  ok : Bool
  trace : List (Nat × BNACmd)
deriving DecidableEq

/-- The issued commands of a run, without timestamps. -/
def BNARun.cmds (r : BNARun) : List BNACmd := r.trace.map Prod.snd

/-- Continuation of block_network_access after the NSG on the source subnet
has been resolved or created (source lines 60-132): address range lookups,
deny-rule creation, hold, rule deletion, and conditional NSG cleanup.
ruleName and nsgName are the computed names, weCreatedNsg the ownership
flag, du the hold duration, tr the commands issued so far (all at time 0). -/
def afterNsg (env : BNAEnv) (ruleName nsgName : String) (weCreatedNsg : Bool) (du : Nat)
    (tr : List (Nat × BNACmd)) : BNARun :=
  if env.showSrcAddr.code ≠ 0 ∨ env.showDstAddr.code ≠ 0 then
    { ok := false, trace := tr }
  else
    let rule := BNACmd.createRule nsgName ruleName (pyStrip env.showSrcAddr.out)
      (pyStrip env.showDstAddr.out)
    if env.createRuleCode ≠ 0 then
      { ok := false, trace := tr ++ [(0, rule)] }
    else if env.deleteRuleCode ≠ 0 then
      { ok := false, trace := tr ++ [(0, rule), (du, .deleteRule nsgName ruleName)] }
    else if weCreatedNsg then
      if env.disassociateCode ≠ 0 then
        { ok := false,
          trace := tr ++ [(0, rule), (du, .deleteRule nsgName ruleName), (du, .disassociateNsg)] }
      else if env.deleteNsgCode ≠ 0 then
        { ok := false,
          trace := tr ++ [(0, rule), (du, .deleteRule nsgName ruleName), (du, .disassociateNsg),
            (du, .deleteNsg nsgName)] }
      else
        { ok := true,
          trace := tr ++ [(0, rule), (du, .deleteRule nsgName ruleName), (du, .disassociateNsg),
            (du, .deleteNsg nsgName)] }
    else
      { ok := true, trace := tr ++ [(0, rule), (du, .deleteRule nsgName ruleName)] }

/-- block_network_access (source lines 26-136).  Queries the NSG attached
to the source subnet; when the query fails or reports none, creates and
associates an NSG named subnetSource-chaostest-nsg and remembers having
created it; then looks up both address ranges, creates the deny rule,
sleeps for durationSeconds, deletes the rule, and, only when the NSG was
experiment-created, disassociates and deletes it.  Every failing status
returns false immediately. -/
def block_network_access (env : BNAEnv) (resourceGroup vnet subnetSource subnetDest : String)
    (durationSeconds : Nat) : BNARun :=
  let ruleName := "block-" ++ subnetSource ++ "-to-" ++ subnetDest ++ "-rule"
  let nsgId := env.getNsg.out
  if env.getNsg.code ≠ 0 ∨ pyStrip nsgId = "" then
    let nsgName := subnetSource ++ "-chaostest-nsg"
    if env.createNsgCode ≠ 0 then
      { ok := false, trace := [(0, .createNsg nsgName)] }
    else if env.associateCode ≠ 0 then
      { ok := false, trace := [(0, .createNsg nsgName), (0, .associateNsg nsgName)] }
    else
      afterNsg env ruleName nsgName true durationSeconds
        [(0, .createNsg nsgName), (0, .associateNsg nsgName)]
  else
    let nsgName := if nsgId ≠ "" then (pySplit '/' (pyStrip nsgId)).getLastD "" else ""
    afterNsg env ruleName nsgName false durationSeconds []

/-- True when the command list holds an NSG create command. -/
def hasCreateNsg (cs : List BNACmd) : Bool :=
  cs.any fun c => match c with | .createNsg _ => true | _ => false

/-- True when the command list holds an NSG delete command. -/
def hasDeleteNsg (cs : List BNACmd) : Bool :=
  cs.any fun c => match c with | .deleteNsg _ => true | _ => false

/-- True when the command list holds the NSG disassociate command. -/
def hasDisassoc (cs : List BNACmd) : Bool :=
  cs.any fun c => match c with | .disassociateNsg => true | _ => false

/-- True when the command list holds a deny-rule create command. -/
def hasCreateRule (cs : List BNACmd) : Bool :=
  cs.any fun c => match c with | .createRule _ _ _ _ => true | _ => false

/-- Recognizer for the deny-rule delete command. -/
def isDeleteRule : BNACmd → Bool
  | .deleteRule _ _ => true
  | _ => false

/- ----------------------------------------------------------------
aks_container_network_partition (src/tests/aks_container_network_partition.py)
---------------------------------------------------------------- -/

/-- The NetworkChaos manifest applied by the partition experiment, modelled
structurally by the fields the source interpolates into its YAML string:
the target namespace, the label-selector value for the isolated zone, the
direction, and the expression-selector value list of the other zones.  The
constant fields (name chaos-partition, action partition, mode all) are not
repeated here. -/
structure NetworkChaosSpec where
  namespaceName : String
  isolatedZone : String
  direction : String
  targetZones : List String
deriving DecidableEq

/-- Mutating kubectl commands issued by the partition experiment: one zone
label per pod, the NetworkChaos apply, and the NetworkChaos delete. -/
inductive PartCmd where
  | label (pod zone : String)
  | applyChaos (s : NetworkChaosSpec)
  | deleteChaos
deriving DecidableEq

/-- External-world responses for aks_container_network_partition: the
preflight probes (credentials, kubectl, helm, chaos-mesh presence; the
chaos-mesh install result is ignored by the source), the pod/zone listing
response, the per-pod label statuses keyed by pod name and zone value, and
the apply and delete statuses. -/
structure PartEnv where
  creds : Bool
  kubectl : Bool
  helm : Bool
  chaosMesh : Bool
  podsResp : Resp
  labelCode : String → String → Int
  applyCode : Int
  deleteCode : Int

/-- A run of aks_container_network_partition: body outcome plus the timed
trace of mutating commands. -/
structure PartRun where
  outcome : Outcome
  trace : List (Nat × PartCmd)
deriving DecidableEq

/-- The issued commands of a partition run, without timestamps. -/
def PartRun.cmds (r : PartRun) : List PartCmd := r.trace.map Prod.snd

/-- The boolean returned to the caller. -/
def PartRun.result (r : PartRun) : Bool := r.outcome.toBool

/-- How the labelling loop over the discovered pod lines ended: all pods
labelled, an early False return on a non-zero label status, or a Python
ValueError from unpacking a line that does not split into exactly a pod
name and a zone. -/
inductive LoopExit where
  | done
  | failedPod
  | exc
deriving DecidableEq

/-- Zone value extracted from a node zone label: the part after the last
dash (source line 46). -/
def zoneSuffix (z : String) : String := (pySplit '-' z).getLastD ""

/-- The pod labelling loop (source lines 42-53): for each line of the pod
listing, unpack pod name and zone (raising on malformed lines), issue the
label command, and return False on a non-zero status. -/
def labelLoop (labelCode : String → String → Int) :
    List String → List (Nat × PartCmd) → List (Nat × PartCmd) × LoopExit
  | [], tr => (tr, .done)
  | line :: rest, tr =>
    match pySplit '\t' line with
    | [podName, podZone] =>
      let z := zoneSuffix podZone
      if labelCode podName z ≠ 0 then (tr ++ [(0, .label podName z)], .failedPod)
      else labelLoop labelCode rest (tr ++ [(0, .label podName z)])
    | _ => (tr, .exc)

/-- The discovered pod lines: the pod listing output, stripped and split on
newlines (source line 42). -/
def podLines (env : PartEnv) : List String := pySplit '\n' (pyStrip env.podsResp.out)

/-- aks_container_network_partition (source lines 17-109).  After the
preflight probes, lists pods with their zones (the status of that listing
is not inspected by the source), labels each pod with its zone suffix
returning False on the first failure, computes the target zones by
removing the isolated zone from the fixed list (a ValueError when absent),
applies the NetworkChaos partition manifest, sleeps for durationSeconds,
and deletes the manifest; a failing apply or delete returns False. -/
def aks_container_network_partition (env : PartEnv) (resourceGroup clusterName namespaceName : String)
    (isolatedZone : Int) (durationSeconds : Nat) : PartRun :=
  if !env.creds then { outcome := .ok false, trace := [] }
  else if !env.kubectl then { outcome := .ok false, trace := [] }
  else if !env.helm then { outcome := .ok false, trace := [] }
  else
    match labelLoop env.labelCode (podLines env) [] with
    | (tr, .failedPod) => { outcome := .ok false, trace := tr }
    | (tr, .exc) => { outcome := .exc, trace := tr }
    | (tr, .done) =>
      match pyRemove ["1", "2", "3"] (toString isolatedZone) with
      | .error _ => { outcome := .exc, trace := tr }
      | .ok targetZones =>
        let s : NetworkChaosSpec :=
          { namespaceName := namespaceName, isolatedZone := toString isolatedZone,
            direction := "both", targetZones := targetZones }
        if env.applyCode ≠ 0 then { outcome := .ok false, trace := tr ++ [(0, .applyChaos s)] }
        else if env.deleteCode ≠ 0 then
          { outcome := .ok false,
            trace := tr ++ [(0, .applyChaos s), (durationSeconds, .deleteChaos)] }
        else
          { outcome := .ok true,
            trace := tr ++ [(0, .applyChaos s), (durationSeconds, .deleteChaos)] }

/-- True when the command list holds a NetworkChaos apply command. -/
def hasApplyChaos (cs : List PartCmd) : Bool :=
  cs.any fun c => match c with | .applyChaos _ => true | _ => false

/-- Recognizer for pod label commands. -/
def isLabelCmd : PartCmd → Bool
  | .label _ _ => true
  | _ => false

/-- Recognizer for the NetworkChaos delete command. -/
def isDeleteChaos : PartCmd → Bool
  | .deleteChaos => true
  | _ => false

/-- A discovered pod line is good when it splits into exactly a pod name
and a zone and the label command for that pod succeeds. -/
def lineOk (labelCode : String → String → Int) (line : String) : Bool :=
  match pySplit '\t' line with
  | [podName, podZone] => labelCode podName (zoneSuffix podZone) == 0
  | _ => false

/-- Every discovered pod line is good. -/
def allLinesOk (labelCode : String → String → Int) (lines : List String) : Bool :=
  lines.all (lineOk labelCode)

/- ----------------------------------------------------------------
aks_zone_down (src/tests/aks_zone_down.py)
---------------------------------------------------------------- -/

/-- One node pool as parsed from the az aks nodepool list JSON: the fields
the source reads. -/
structure Nodepool where
  name : String
  enableAutoScaling : Bool
deriving DecidableEq

/-- External-world responses for aks_zone_down: the node resource group
query, the node pool listing status together with the result of
json.loads on its output (none models a decode error raising inside the
try block), and per node pool the VMSS name listing, the zone-filtered
instance listing (keyed by VMSS name and target zone), and the
delete-machines status. -/
structure ZDEnv where
  showCluster : Resp
  listNodepoolsCode : Int
  nodepoolsParsed : Option (List Nodepool)
  listVmss : String → Resp
  listInstances : String → String → Resp
  deleteMachinesCode : String → Int

/-- The only mutating command of aks_zone_down: deleting the listed
machines of one node pool. -/
inductive ZDCmd where
  | deleteMachines (pool : String) (machines : List String)
deriving DecidableEq

/-- A run of aks_zone_down: body outcome plus issued delete commands (the
function has no sleep, so commands are untimed). -/
structure ZDRun where
  outcome : Outcome
  trace : List ZDCmd
deriving DecidableEq

/-- The boolean returned to the caller. -/
def ZDRun.result (r : ZDRun) : Bool := r.outcome.toBool

/-- Python list comprehension over tsv output (source lines 80 and 103):
strip the whole output, split on newlines, strip each line, drop empties. -/
def tsvLines (s : String) : List String :=
  ((pySplit '\n' (pyStrip s)).map pyStrip).filter (fun v => v ≠ "")

/-- The machine names aks_zone_down would delete for one node pool (source
lines 67-104): empty when the VMSS listing fails, no VMSS name matches,
the instance listing fails, or no instance sits in the target zone;
otherwise the instance names of the first matching VMSS. -/
def poolMachines (env : ZDEnv) (targetZone : String) (np : Nodepool) : List String :=
  if (env.listVmss np.name).code ≠ 0 then []
  else
    match tsvLines (env.listVmss np.name).out with
    | [] => []
    | vmssName :: _ =>
      if (env.listInstances vmssName targetZone).code ≠ 0 then []
      else tsvLines (env.listInstances vmssName targetZone).out

/-- The per node pool loop of aks_zone_down (source lines 64-128): pools
with no machines in the target zone are skipped; otherwise the delete
command is issued, and a failing delete returns False at once. -/
def zoneLoop (env : ZDEnv) (targetZone : String) :
    List Nodepool → List ZDCmd → List ZDCmd × Bool
  | [], tr => (tr, true)
  | np :: rest, tr =>
    let ms := poolMachines env targetZone np
    if ms.isEmpty then zoneLoop env targetZone rest tr
    else if env.deleteMachinesCode np.name ≠ 0 then (tr ++ [.deleteMachines np.name ms], false)
    else zoneLoop env targetZone rest (tr ++ [.deleteMachines np.name ms])

/-- aks_zone_down (source lines 25-134).  Aborts with False when the node
resource group query or the node pool listing fails; raises (caught to
False) when the node pool JSON does not parse; then runs the per-pool
deletion loop and returns True when it completes. -/
def aks_zone_down (env : ZDEnv) (resourceGroup clusterName targetZone : String) : ZDRun :=
  if env.showCluster.code ≠ 0 then { outcome := .ok false, trace := [] }
  else if env.listNodepoolsCode ≠ 0 then { outcome := .ok false, trace := [] }
  else
    match env.nodepoolsParsed with
    | none => { outcome := .exc, trace := [] }
    | some nodepools =>
      match zoneLoop env targetZone nodepools [] with
      | (tr, false) => { outcome := .ok false, trace := tr }
      | (tr, true) => { outcome := .ok true, trace := tr }

/-- No issued delete-machines command carries an empty machine list. -/
def noEmptyDelete (cs : List ZDCmd) : Bool :=
  cs.all fun c => match c with | .deleteMachines _ ms => !ms.isEmpty

/- ----------------------------------------------------------------
postgres_failover (src/tests/postgres_failover.py)
---------------------------------------------------------------- -/

/-- The database description as parsed from the server show JSON: the
high-availability mode (None models a missing key chain) and the
availability zone, which the source only logs. -/
structure DbInfo where
  haMode : Option String
  availabilityZone : String
deriving DecidableEq

/-- External-world responses for postgres_failover: the first server show
status and its parse result (none models a JSON decode error), the restart
status, and the parse result of the second, post-failover show (whose
status the source never checks). -/
structure PGEnv where
  showDbCode : Int
  dbParsed : Option DbInfo
  restartCode : Int
  dbParsed2 : Option DbInfo

/-- postgres_failover (source lines 20-87).  Aborts with False when the
show fails, the JSON does not parse (a caught decode error), or the server
is not ZoneRedundant; issues the restart with Forced or Planned failover;
then re-reads the server state, raising (caught to False) when that JSON
does not parse. -/
def postgres_failover (env : PGEnv) (resourceGroup databaseName : String)
    (forcedFailover : Bool) : Outcome :=
  if env.showDbCode ≠ 0 then .ok false
  else
    match env.dbParsed with
    | none => .exc
    | some db =>
      if db.haMode ≠ some "ZoneRedundant" then .ok false
      else if env.restartCode ≠ 0 then .ok false
      else
        match env.dbParsed2 with
        | none => .exc
        | some _ => .ok true

/- ----------------------------------------------------------------
aks_kill_pods (src/tests/aks_kill_pods.py)
---------------------------------------------------------------- -/

/-- External-world responses for aks_kill_pods: credential and kubectl
preflights and the pod delete status. -/
structure KPEnv where
  creds : Bool
  kubectl : Bool
  deleteCode : Int

/-- aks_kill_pods (source lines 23-54).  After the preflights, issues one
pod delete command (graceful or forced grace flags only change the command
text) and returns whether it succeeded. -/
def aks_kill_pods (env : KPEnv) (resourceGroup clusterName namespaceName labelSelector : String)
    (gracefulStop : Bool) : Bool :=
  if !env.creds then false
  else if !env.kubectl then false
  else if env.deleteCode ≠ 0 then false
  else true

/- ----------------------------------------------------------------
Concrete environments used by counterexamples and witnesses
---------------------------------------------------------------- -/

/-- A world where the source subnet has no NSG, NSG creation and
association succeed, but the source address range lookup fails. -/
def envInjectFail : BNAEnv :=
  { getNsg := ⟨"", 0⟩, createNsgCode := 0, associateCode := 0,
    showSrcAddr := ⟨"", 1⟩, showDstAddr := ⟨"", 0⟩, createRuleCode := 0,
    deleteRuleCode := 0, disassociateCode := 0, deleteNsgCode := 0 }

/-- A world where the source subnet has no NSG and every az call succeeds. -/
def envAllOkNew : BNAEnv :=
  { getNsg := ⟨"", 0⟩, createNsgCode := 0, associateCode := 0,
    showSrcAddr := ⟨"10.0.0.0/24", 0⟩, showDstAddr := ⟨"10.0.1.0/24", 0⟩,
    createRuleCode := 0, deleteRuleCode := 0, disassociateCode := 0, deleteNsgCode := 0 }

/-- A world where the source subnet already carries an NSG and every az
call succeeds. -/
def envAllOkPre : BNAEnv :=
  { envAllOkNew with getNsg := ⟨"a/b/nsgX", 0⟩ }

/-- A kubernetes world where two pods in two zones are discovered and every
kubectl call succeeds. -/
def partEnvOk : PartEnv :=
  { creds := true, kubectl := true, helm := true, chaosMesh := true,
    podsResp := ⟨"podA\tus-1\npodB\tus-2", 0⟩,
    labelCode := fun _ _ => 0, applyCode := 0, deleteCode := 0 }

/-- Like partEnvOk but the pod listing reports a non-zero exit status while
still printing one well-formed pod line. -/
def partEnvBadQuery : PartEnv :=
  { partEnvOk with podsResp := ⟨"podA\tus-1", 1⟩ }

/-- Like partEnvOk but every pod label command fails. -/
def partEnvLabelFail : PartEnv :=
  { partEnvOk with labelCode := fun _ _ => 1 }

/-- Like partEnvOk but the pod listing output is empty, so unpacking the
single empty line raises. -/
def partEnvExcPods : PartEnv :=
  { partEnvOk with podsResp := ⟨"", 0⟩ }

/-- An azure world with one node pool whose VMSS has no instance in the
target zone, and all queries succeeding. -/
def zdEnvEmpty : ZDEnv :=
  { showCluster := ⟨"MC_test", 0⟩, listNodepoolsCode := 0,
    nodepoolsParsed := some [⟨"pool1", false⟩],
    listVmss := fun _ => ⟨"vmss1", 0⟩,
    listInstances := fun _ _ => ⟨"", 0⟩,
    deleteMachinesCode := fun _ => 0 }

/-- Like zdEnvEmpty but the node pool JSON does not parse. -/
def zdEnvExc : ZDEnv :=
  { zdEnvEmpty with nodepoolsParsed := none }

/-- Like zdEnvEmpty but the cluster show query fails. -/
def zdEnvClusterFail : ZDEnv :=
  { zdEnvEmpty with showCluster := ⟨"", 1⟩ }

/-- Like zdEnvEmpty but the node pool listing fails. -/
def zdEnvNodepoolFail : ZDEnv :=
  { zdEnvEmpty with listNodepoolsCode := 1 }

/-- A postgres world where the post-failover show output does not parse. -/
def pgEnvExc : PGEnv :=
  { showDbCode := 0, dbParsed := some ⟨some "ZoneRedundant", "1"⟩,
    restartCode := 0, dbParsed2 := none }

/- ----------------------------------------------------------------
Lemmas about block_network_access
---------------------------------------------------------------- -/

/-- On a successful run, the continuation after NSG resolution appends the
rule creation, the post-hold rule deletion, and, exactly when the NSG was
experiment-created, the disassociate and delete commands. -/
theorem afterNsg_ok_trace (env : BNAEnv) (rn nn : String) (wc : Bool) (du : Nat)
    (tr : List (Nat × BNACmd))
    (h : (afterNsg env rn nn wc du tr).ok = true) :
    (afterNsg env rn nn wc du tr).trace =
      tr ++ [(0, BNACmd.createRule nn rn (pyStrip env.showSrcAddr.out) (pyStrip env.showDstAddr.out)),
        (du, BNACmd.deleteRule nn rn)] ++
      (if wc then [(du, BNACmd.disassociateNsg), (du, BNACmd.deleteNsg nn)] else []) := by
  by_cases h1 : env.showSrcAddr.code ≠ 0 ∨ env.showDstAddr.code ≠ 0
  · simp [afterNsg, h1] at h
  · by_cases h2 : env.createRuleCode ≠ 0
    · simp [afterNsg, h1, h2] at h
    · by_cases h3 : env.deleteRuleCode ≠ 0
      · simp [afterNsg, h1, h2, h3] at h
      · cases wc with
        | false => simp [afterNsg, h1, h2, h3]
        | true =>
          by_cases h4 : env.disassociateCode ≠ 0
          · simp [afterNsg, h1, h2, h3, h4] at h
          · by_cases h5 : env.deleteNsgCode ≠ 0
            · simp [afterNsg, h1, h2, h3, h4, h5] at h
            · simp [afterNsg, h1, h2, h3, h4, h5]

/-- C1: on every run of block_network_access that returns true, the NSG on
the source subnet is disassociated and deleted during rollback exactly when
the experiment created it, which happens exactly when the initial NSG query
failed or reported no attached NSG; a pre-existing NSG is never
disassociated or deleted. -/
theorem claim1_nsg_cleanup_symmetry (env : BNAEnv) (rg vn ss sd : String) (du : Nat)
    (h : (block_network_access env rg vn ss sd du).ok = true) :
    (hasCreateNsg (block_network_access env rg vn ss sd du).cmds = true ↔
      (env.getNsg.code ≠ 0 ∨ pyStrip env.getNsg.out = "")) ∧
    hasDeleteNsg (block_network_access env rg vn ss sd du).cmds =
      hasCreateNsg (block_network_access env rg vn ss sd du).cmds ∧
    hasDisassoc (block_network_access env rg vn ss sd du).cmds =
      hasCreateNsg (block_network_access env rg vn ss sd du).cmds := by
  by_cases h0 : env.getNsg.code ≠ 0 ∨ pyStrip env.getNsg.out = ""
  · by_cases h1 : env.createNsgCode ≠ 0
    · simp [block_network_access, h0, h1] at h
    · by_cases h2 : env.associateCode ≠ 0
      · simp [block_network_access, h0, h1, h2] at h
      · have hb : block_network_access env rg vn ss sd du =
            afterNsg env ("block-" ++ ss ++ "-to-" ++ sd ++ "-rule") (ss ++ "-chaostest-nsg")
              true du
              [(0, .createNsg (ss ++ "-chaostest-nsg")), (0, .associateNsg (ss ++ "-chaostest-nsg"))] := by
          simp [block_network_access, h0, h1, h2]
        rw [hb] at h ⊢
        have ht := afterNsg_ok_trace _ _ _ _ _ _ h
        simp [BNARun.cmds, ht, hasCreateNsg, hasDeleteNsg, hasDisassoc, h0]
  · have hb : block_network_access env rg vn ss sd du =
        afterNsg env ("block-" ++ ss ++ "-to-" ++ sd ++ "-rule")
          (if env.getNsg.out ≠ "" then (pySplit '/' (pyStrip env.getNsg.out)).getLastD "" else "")
          false du [] := by
      simp [block_network_access, h0]
    rw [hb] at h ⊢
    generalize (if env.getNsg.out ≠ "" then (pySplit '/' (pyStrip env.getNsg.out)).getLastD "" else "") = nn at h ⊢
    have ht := afterNsg_ok_trace _ _ _ _ _ _ h
    simp [BNARun.cmds, ht, hasCreateNsg, hasDeleteNsg, hasDisassoc, h0]

/-- C2 counterexample: a run in which the experiment created and associated
an NSG and the address range lookup then failed; the function returns false
with a trace holding only the create and associate commands, so no
disassociate or delete of the experiment-created NSG was ever attempted. -/
theorem claim2_leak_cex :
    block_network_access envInjectFail "test" "niels-test-vnet" "SubnetA" "SubnetB" 30 =
      { ok := false,
        trace := [(0, .createNsg "SubnetA-chaostest-nsg"),
          (0, .associateNsg "SubnetA-chaostest-nsg")] } := by
  decide

/-- C2 as amended: when the experiment created the NSG and a later
injection step fails (address lookup or deny-rule creation), the function
returns false immediately and never attempts the disassociate or delete of
the NSG it created: the experiment-created NSG is leaked, since its cleanup
only runs on the all-success path. -/
theorem claim2_no_cleanup_on_failed_injection (env : BNAEnv) (rg vn ss sd : String) (du : Nat)
    (hmiss : env.getNsg.code ≠ 0 ∨ pyStrip env.getNsg.out = "")
    (hcre : env.createNsgCode = 0) (hass : env.associateCode = 0)
    (hfail : (env.showSrcAddr.code ≠ 0 ∨ env.showDstAddr.code ≠ 0) ∨ env.createRuleCode ≠ 0) :
    (block_network_access env rg vn ss sd du).ok = false ∧
    hasCreateNsg (block_network_access env rg vn ss sd du).cmds = true ∧
    hasDisassoc (block_network_access env rg vn ss sd du).cmds = false ∧
    hasDeleteNsg (block_network_access env rg vn ss sd du).cmds = false := by
  by_cases h3 : env.showSrcAddr.code ≠ 0 ∨ env.showDstAddr.code ≠ 0 <;>
  by_cases h4 : env.createRuleCode ≠ 0 <;>
  simp_all [block_network_access, afterNsg, BNARun.cmds, hasCreateNsg, hasDisassoc, hasDeleteNsg]

/-- C2 witness: the amended statement evaluated in the concrete failing
world envInjectFail. -/
theorem claim2_witness :
    (block_network_access envInjectFail "test" "niels-test-vnet" "SubnetA" "SubnetB" 30).ok = false ∧
    hasCreateNsg (block_network_access envInjectFail "test" "niels-test-vnet" "SubnetA" "SubnetB" 30).cmds = true ∧
    hasDisassoc (block_network_access envInjectFail "test" "niels-test-vnet" "SubnetA" "SubnetB" 30).cmds = false ∧
    hasDeleteNsg (block_network_access envInjectFail "test" "niels-test-vnet" "SubnetA" "SubnetB" 30).cmds = false :=
  claim2_no_cleanup_on_failed_injection envInjectFail "test" "niels-test-vnet" "SubnetA" "SubnetB" 30
    (by decide) (by decide) (by decide) (by decide)

/-- C1 witness: the symmetry statement evaluated in the world where the
experiment created the NSG and everything succeeded, and in the world where
the NSG pre-existed. -/
theorem claim1_witness :
    ((hasCreateNsg (block_network_access envAllOkNew "test" "v" "SubnetA" "SubnetB" 30).cmds = true ↔
      (envAllOkNew.getNsg.code ≠ 0 ∨ pyStrip envAllOkNew.getNsg.out = "")) ∧
    hasDeleteNsg (block_network_access envAllOkNew "test" "v" "SubnetA" "SubnetB" 30).cmds =
      hasCreateNsg (block_network_access envAllOkNew "test" "v" "SubnetA" "SubnetB" 30).cmds ∧
    hasDisassoc (block_network_access envAllOkNew "test" "v" "SubnetA" "SubnetB" 30).cmds =
      hasCreateNsg (block_network_access envAllOkNew "test" "v" "SubnetA" "SubnetB" 30).cmds) ∧
    hasDeleteNsg (block_network_access envAllOkPre "test" "v" "SubnetA" "SubnetB" 30).cmds =
      hasCreateNsg (block_network_access envAllOkPre "test" "v" "SubnetA" "SubnetB" 30).cmds :=
  ⟨claim1_nsg_cleanup_symmetry envAllOkNew "test" "v" "SubnetA" "SubnetB" 30 (by decide),
   (claim1_nsg_cleanup_symmetry envAllOkPre "test" "v" "SubnetA" "SubnetB" 30 (by decide)).2.1⟩

/- ----------------------------------------------------------------
Lemmas about aks_container_network_partition
---------------------------------------------------------------- -/

/-- Everything the labelling loop adds to its accumulator is a label
command issued at time 0. -/
theorem labelLoop_mem (lc : String → String → Int) :
    ∀ (lines : List String) (tr : List (Nat × PartCmd)) (p : Nat × PartCmd),
      p ∈ (labelLoop lc lines tr).1 → p ∈ tr ∨ ∃ pn z, p = (0, PartCmd.label pn z) := by
  intro lines
  induction lines with
  | nil =>
    intro tr p hp
    exact Or.inl (by simpa [labelLoop] using hp)
  | cons line rest ih =>
    intro tr p hp
    rcases hsp : pySplit '\t' line with _ | ⟨pn, _ | ⟨pz, _ | ⟨x, xs⟩⟩⟩
    · simp only [labelLoop, hsp] at hp
      exact Or.inl hp
    · simp only [labelLoop, hsp] at hp
      exact Or.inl hp
    · by_cases hc : lc pn (zoneSuffix pz) ≠ 0
      · simp only [labelLoop, hsp, if_pos hc] at hp
        rcases List.mem_append.1 hp with hp | hp
        · exact Or.inl hp
        · exact Or.inr ⟨pn, zoneSuffix pz, by simpa using hp⟩
      · simp only [labelLoop, hsp, if_neg hc] at hp
        rcases ih _ p hp with hp | hp
        · rcases List.mem_append.1 hp with hp | hp
          · exact Or.inl hp
          · exact Or.inr ⟨pn, zoneSuffix pz, by simpa using hp⟩
        · exact Or.inr hp
    · simp only [labelLoop, hsp] at hp
      exact Or.inl hp

/-- The labelling loop finishes normally exactly when every discovered pod
line parses and its label command succeeds. -/
theorem labelLoop_done_iff (lc : String → String → Int) :
    ∀ (lines : List String) (tr : List (Nat × PartCmd)),
      ((labelLoop lc lines tr).2 = .done ↔ allLinesOk lc lines = true) := by
  intro lines
  induction lines with
  | nil => intro tr; simp [labelLoop, allLinesOk]
  | cons line rest ih =>
    intro tr
    rcases hsp : pySplit '\t' line with _ | ⟨pn, _ | ⟨pz, _ | ⟨x, xs⟩⟩⟩
    · simp [labelLoop, hsp, allLinesOk, lineOk]
    · simp [labelLoop, hsp, allLinesOk, lineOk]
    · by_cases hc : lc pn (zoneSuffix pz) ≠ 0
      · simp [labelLoop, hsp, if_pos hc, allLinesOk, lineOk, hc]
      · rw [show (labelLoop lc (line :: rest) tr) =
            labelLoop lc rest (tr ++ [(0, PartCmd.label pn (zoneSuffix pz))]) by
          simp only [labelLoop, hsp, if_neg hc]]
        rw [ih]
        simp [allLinesOk, lineOk, hsp, not_not.1 hc]
    · simp [labelLoop, hsp, allLinesOk, lineOk]

/-- A normally finishing labelling loop issues exactly one label command
per discovered pod line. -/
theorem labelLoop_done_len (lc : String → String → Int) :
    ∀ (lines : List String) (tr : List (Nat × PartCmd)),
      (labelLoop lc lines tr).2 = .done →
      (labelLoop lc lines tr).1.length = tr.length + lines.length := by
  intro lines
  induction lines with
  | nil => intro tr _; simp [labelLoop]
  | cons line rest ih =>
    intro tr hd
    rcases hsp : pySplit '\t' line with _ | ⟨pn, _ | ⟨pz, _ | ⟨x, xs⟩⟩⟩
    · simp [labelLoop, hsp] at hd
    · simp [labelLoop, hsp] at hd
    · by_cases hc : lc pn (zoneSuffix pz) ≠ 0
      · simp [labelLoop, hsp, if_pos hc] at hd
      · rw [show (labelLoop lc (line :: rest) tr) =
            labelLoop lc rest (tr ++ [(0, PartCmd.label pn (zoneSuffix pz))]) by
          simp only [labelLoop, hsp, if_neg hc]] at hd ⊢
        rw [ih _ hd]
        simp
        omega
    · simp [labelLoop, hsp] at hd

/-- A list of label commands holds no NetworkChaos apply command. -/
theorem no_apply_of_labels (tr : List (Nat × PartCmd))
    (h : ∀ p ∈ tr, ∃ pn zz, p = (0, PartCmd.label pn zz)) :
    hasApplyChaos (tr.map Prod.snd) = false := by
  rw [hasApplyChaos, List.any_eq_false]
  intro c hc
  rcases List.mem_map.1 hc with ⟨p, hp, rfl⟩
  rcases h p hp with ⟨pn, zz, rfl⟩
  simp

/-- A list of label commands holds no NetworkChaos delete command. -/
theorem no_deleteChaos_of_labels (tr : List (Nat × PartCmd))
    (h : ∀ p ∈ tr, ∃ pn zz, p = (0, PartCmd.label pn zz)) :
    (tr.map Prod.snd).countP isDeleteChaos = 0 := by
  rw [List.countP_eq_zero]
  intro c hc
  rcases List.mem_map.1 hc with ⟨p, hp, rfl⟩
  rcases h p hp with ⟨pn, zz, rfl⟩
  simp [isDeleteChaos]

/-- A list of label commands counts entirely as label commands. -/
theorem countP_label_of_labels (tr : List (Nat × PartCmd))
    (h : ∀ p ∈ tr, ∃ pn zz, p = (0, PartCmd.label pn zz)) :
    (tr.map Prod.snd).countP isLabelCmd = tr.length := by
  have hl : (tr.map Prod.snd).countP isLabelCmd = (tr.map Prod.snd).length := by
    rw [List.countP_eq_length]
    intro c hc
    rcases List.mem_map.1 hc with ⟨p, hp, rfl⟩
    rcases h p hp with ⟨pn, zz, rfl⟩
    simp [isLabelCmd]
  simpa using hl

/-- Everything the labelling loop produces from an empty accumulator is a
label command at time 0. -/
theorem labelLoop_nil_labels (lc : String → String → Int) (lines : List String) :
    ∀ p ∈ (labelLoop lc lines []).1, ∃ pn zz, p = (0, PartCmd.label pn zz) := by
  intro p hp
  rcases labelLoop_mem lc lines [] p hp with hp | hp
  · simp at hp
  · exact hp

/-- Shape of a partition run that passes the preflights, labels every pod,
and removes the isolated zone successfully: the trace is the label
commands, the apply of the interpolated manifest, and, when the apply
succeeded, the delete at the hold duration. -/
theorem partition_done_ok_shape (env : PartEnv) (rg cn ns : String) (z : Int) (du : Nat)
    (tr : List (Nat × PartCmd)) (tz : List String)
    (hcr : env.creds = true) (hku : env.kubectl = true) (hhe : env.helm = true)
    (hL : labelLoop env.labelCode (podLines env) [] = (tr, .done))
    (hR : pyRemove ["1", "2", "3"] (toString z) = .ok tz) :
    (aks_container_network_partition env rg cn ns z du).trace =
      tr ++ [(0, PartCmd.applyChaos ⟨ns, toString z, "both", tz⟩)] ++
        (if env.applyCode = 0 then [(du, PartCmd.deleteChaos)] else []) := by
  by_cases ha : env.applyCode ≠ 0
  · simp [aks_container_network_partition, hcr, hku, hhe, hL, hR, ha]
  · by_cases hd : env.deleteCode ≠ 0 <;>
    simp [aks_container_network_partition, hcr, hku, hhe, hL, hR, ha, hd, not_not.1 ha]

/-- When the apply command of the partition experiment appears in the
trace, the labelling loop finished for every pod, the isolated zone was one
of the fixed zones, and the manifest is exactly the interpolated one with
the other two zones as targets. -/
theorem partition_apply_mem (env : PartEnv) (rg cn ns : String) (z : Int) (du : Nat)
    (s : NetworkChaosSpec)
    (h : PartCmd.applyChaos s ∈ (aks_container_network_partition env rg cn ns z du).cmds) :
    (labelLoop env.labelCode (podLines env) []).2 = .done ∧
    toString z ∈ (["1", "2", "3"] : List String) ∧
    s = { namespaceName := ns, isolatedZone := toString z, direction := "both",
          targetZones := (["1", "2", "3"] : List String).erase (toString z) } := by
  cases hcr : env.creds with
  | false => simp [aks_container_network_partition, hcr, PartRun.cmds] at h
  | true =>
  cases hku : env.kubectl with
  | false => simp [aks_container_network_partition, hcr, hku, PartRun.cmds] at h
  | true =>
  cases hhe : env.helm with
  | false => simp [aks_container_network_partition, hcr, hku, hhe, PartRun.cmds] at h
  | true =>
  rcases hL : labelLoop env.labelCode (podLines env) [] with ⟨tr, ex⟩
  have htr : ∀ p ∈ tr, ∃ pn zz, p = (0, PartCmd.label pn zz) := by
    intro p hp
    exact labelLoop_nil_labels env.labelCode (podLines env) p (by rw [hL]; exact hp)
  have hnotr : PartCmd.applyChaos s ∉ tr.map Prod.snd := by
    intro hmem
    rcases List.mem_map.1 hmem with ⟨p, hp, he⟩
    rcases htr p hp with ⟨pn, zz, rfl⟩
    simp at he
  cases ex with
  | failedPod =>
    simp only [aks_container_network_partition, hcr, hku, hhe, hL, PartRun.cmds] at h
    simp at h
    exact absurd (List.mem_map.2 (by simpa using h)) hnotr
  | exc =>
    simp only [aks_container_network_partition, hcr, hku, hhe, hL, PartRun.cmds] at h
    simp at h
    exact absurd (List.mem_map.2 (by simpa using h)) hnotr
  | done =>
    cases hR : pyRemove ["1", "2", "3"] (toString z) with
    | error u =>
      simp only [aks_container_network_partition, hcr, hku, hhe, hL, hR, PartRun.cmds] at h
      simp at h
      exact absurd (List.mem_map.2 (by simpa using h)) hnotr
    | ok tz =>
      have hmz : toString z ∈ (["1", "2", "3"] : List String) ∧
          tz = (["1", "2", "3"] : List String).erase (toString z) := by
        by_cases hm : toString z ∈ (["1", "2", "3"] : List String)
        · refine ⟨hm, ?_⟩
          simp [pyRemove, hm] at hR
          exact hR.symm
        · simp [pyRemove, hm] at hR
      refine ⟨rfl, hmz.1, ?_⟩
      have hsh := partition_done_ok_shape env rg cn ns z du tr tz hcr hku hhe hL hR
      rw [PartRun.cmds, hsh] at h
      simp only [List.map_append, List.mem_append] at h
      rcases h with (h | h) | h
      · exact absurd h hnotr
      · simp at h
        rw [h, hmz.2]
      · rcases (em (env.applyCode = 0)) with ha | ha <;> simp [ha] at h

/-- A command list with hasApplyChaos holds some apply command. -/
theorem exists_of_hasApply (cs : List PartCmd) (h : hasApplyChaos cs = true) :
    ∃ s, PartCmd.applyChaos s ∈ cs := by
  rw [hasApplyChaos, List.any_eq_true] at h
  rcases h with ⟨c, hc, hm⟩
  cases c with
  | applyChaos s => exact ⟨s, hc⟩
  | label a b => simp at hm
  | deleteChaos => simp at hm

/-- When the labelling loop does not finish normally, the experiment
returns false and the NetworkChaos apply command is never issued. -/
theorem partition_not_done (env : PartEnv) (rg cn ns : String) (z : Int) (du : Nat)
    (hne : (labelLoop env.labelCode (podLines env) []).2 ≠ .done) :
    (aks_container_network_partition env rg cn ns z du).result = false ∧
    hasApplyChaos (aks_container_network_partition env rg cn ns z du).cmds = false := by
  cases hcr : env.creds with
  | false =>
    simp [aks_container_network_partition, hcr, PartRun.cmds, PartRun.result, Outcome.toBool,
      hasApplyChaos]
  | true =>
  cases hku : env.kubectl with
  | false =>
    simp [aks_container_network_partition, hcr, hku, PartRun.cmds, PartRun.result, Outcome.toBool,
      hasApplyChaos]
  | true =>
  cases hhe : env.helm with
  | false =>
    simp [aks_container_network_partition, hcr, hku, hhe, PartRun.cmds, PartRun.result,
      Outcome.toBool, hasApplyChaos]
  | true =>
  rcases hL : labelLoop env.labelCode (podLines env) [] with ⟨tr, ex⟩
  have htr : ∀ p ∈ tr, ∃ pn zz, p = (0, PartCmd.label pn zz) := by
    intro p hp
    exact labelLoop_nil_labels env.labelCode (podLines env) p (by rw [hL]; exact hp)
  cases ex with
  | done => rw [hL] at hne; simp at hne
  | failedPod =>
    constructor
    · simp [aks_container_network_partition, hcr, hku, hhe, hL, PartRun.result, Outcome.toBool]
    · have : (aks_container_network_partition env rg cn ns z du).cmds = tr.map Prod.snd := by
        simp [aks_container_network_partition, hcr, hku, hhe, hL, PartRun.cmds]
      rw [this]
      exact no_apply_of_labels tr htr
  | exc =>
    constructor
    · simp [aks_container_network_partition, hcr, hku, hhe, hL, PartRun.result, Outcome.toBool]
    · have : (aks_container_network_partition env rg cn ns z du).cmds = tr.map Prod.snd := by
        simp [aks_container_network_partition, hcr, hku, hhe, hL, PartRun.cmds]
      rw [this]
      exact no_apply_of_labels tr htr

/-- Every event of a partition run is a label at time 0, the apply at time
0, or the delete at the hold duration. -/
theorem partition_trace_shape (env : PartEnv) (rg cn ns : String) (z : Int) (du : Nat) :
    ∀ p ∈ (aks_container_network_partition env rg cn ns z du).trace,
      (∃ pn zz, p = (0, PartCmd.label pn zz)) ∨ (∃ s, p = (0, PartCmd.applyChaos s)) ∨
      p = (du, PartCmd.deleteChaos) := by
  intro p hp
  cases hcr : env.creds with
  | false => simp [aks_container_network_partition, hcr] at hp
  | true =>
  cases hku : env.kubectl with
  | false => simp [aks_container_network_partition, hcr, hku] at hp
  | true =>
  cases hhe : env.helm with
  | false => simp [aks_container_network_partition, hcr, hku, hhe] at hp
  | true =>
  rcases hL : labelLoop env.labelCode (podLines env) [] with ⟨tr, ex⟩
  have htr : ∀ q ∈ tr, ∃ pn zz, q = (0, PartCmd.label pn zz) := by
    intro q hq
    exact labelLoop_nil_labels env.labelCode (podLines env) q (by rw [hL]; exact hq)
  cases ex with
  | failedPod =>
    simp only [aks_container_network_partition, hcr, hku, hhe, hL] at hp
    simp at hp
    exact Or.inl (htr p hp)
  | exc =>
    simp only [aks_container_network_partition, hcr, hku, hhe, hL] at hp
    simp at hp
    exact Or.inl (htr p hp)
  | done =>
    cases hR : pyRemove ["1", "2", "3"] (toString z) with
    | error u =>
      simp only [aks_container_network_partition, hcr, hku, hhe, hL, hR] at hp
      simp at hp
      exact Or.inl (htr p hp)
    | ok tz =>
      rw [partition_done_ok_shape env rg cn ns z du tr tz hcr hku hhe hL hR] at hp
      rcases List.mem_append.1 hp with hp | hp
      · rcases List.mem_append.1 hp with hp | hp
        · exact Or.inl (htr p hp)
        · simp only [List.mem_singleton] at hp
          exact Or.inr (Or.inl ⟨_, hp⟩)
      · rcases (em (env.applyCode = 0)) with ha | ha
        · rw [if_pos ha] at hp
          simp only [List.mem_singleton] at hp
          exact Or.inr (Or.inr hp)
        · rw [if_neg ha] at hp
          simp at hp

/-- C3: the partition policy is applied only when every discovered pod was
successfully labelled (one label command per discovered pod line), and a
labelling failure makes the experiment return false with the policy never
applied. -/
theorem claim3_labeling_gates_partition (env : PartEnv) (rg cn ns : String) (z : Int) (du : Nat) :
    (hasApplyChaos (aks_container_network_partition env rg cn ns z du).cmds = true →
      allLinesOk env.labelCode (podLines env) = true) ∧
    (hasApplyChaos (aks_container_network_partition env rg cn ns z du).cmds = true →
      (aks_container_network_partition env rg cn ns z du).cmds.countP isLabelCmd =
        (podLines env).length) ∧
    (allLinesOk env.labelCode (podLines env) = false →
      (aks_container_network_partition env rg cn ns z du).result = false ∧
      hasApplyChaos (aks_container_network_partition env rg cn ns z du).cmds = false) := by
  refine ⟨?_, ?_, ?_⟩
  · intro h
    rcases exists_of_hasApply _ h with ⟨s, hs⟩
    have hd := (partition_apply_mem env rg cn ns z du s hs).1
    exact (labelLoop_done_iff env.labelCode (podLines env) []).1 hd
  · intro h
    rcases exists_of_hasApply _ h with ⟨s, hs⟩
    obtain ⟨hd, hmz, -⟩ := partition_apply_mem env rg cn ns z du s hs
    cases hcr : env.creds with
    | false => simp [aks_container_network_partition, hcr, PartRun.cmds, hasApplyChaos] at h
    | true =>
    cases hku : env.kubectl with
    | false => simp [aks_container_network_partition, hcr, hku, PartRun.cmds, hasApplyChaos] at h
    | true =>
    cases hhe : env.helm with
    | false =>
      simp [aks_container_network_partition, hcr, hku, hhe, PartRun.cmds, hasApplyChaos] at h
    | true =>
    rcases hL : labelLoop env.labelCode (podLines env) [] with ⟨tr, ex⟩
    have htr : ∀ q ∈ tr, ∃ pn zz, q = (0, PartCmd.label pn zz) := by
      intro q hq
      exact labelLoop_nil_labels env.labelCode (podLines env) q (by rw [hL]; exact hq)
    rw [hL] at hd
    simp only at hd
    subst hd
    have hlen : tr.length = (podLines env).length := by
      have := labelLoop_done_len env.labelCode (podLines env) [] (by rw [hL])
      rw [hL] at this
      simpa using this
    have hm : toString z ∈ (["1", "2", "3"] : List String) := hmz
    have hR : pyRemove ["1", "2", "3"] (toString z) =
        .ok ((["1", "2", "3"] : List String).erase (toString z)) := by
      simp [pyRemove, hm]
    rw [PartRun.cmds, partition_done_ok_shape env rg cn ns z du tr _ hcr hku hhe hL hR]
    have hcnt := countP_label_of_labels tr htr
    rcases (em (env.applyCode = 0)) with ha | ha <;>
      simp [ha, List.countP_append, List.countP_cons, isLabelCmd, hcnt, hlen]
  · intro hbad
    refine partition_not_done env rg cn ns z du ?_
    intro hd
    rw [labelLoop_done_iff env.labelCode (podLines env) []] at hd
    rw [hbad] at hd
    exact Bool.false_ne_true hd

/-- C3 witness: with two healthy pods the apply happens and both lines are
good with two label commands; with failing label commands the experiment
returns false and never applies the policy. -/
theorem claim3_witness :
    (allLinesOk partEnvOk.labelCode (podLines partEnvOk) = true ∧
      (aks_container_network_partition partEnvOk "test" "c" "hello-world" 1 60).cmds.countP
        isLabelCmd = (podLines partEnvOk).length) ∧
    ((aks_container_network_partition partEnvLabelFail "test" "c" "hello-world" 1 60).result = false ∧
      hasApplyChaos (aks_container_network_partition partEnvLabelFail "test" "c" "hello-world" 1 60).cmds = false) :=
  ⟨⟨(claim3_labeling_gates_partition partEnvOk "test" "c" "hello-world" 1 60).1 (by decide),
    (claim3_labeling_gates_partition partEnvOk "test" "c" "hello-world" 1 60).2.1 (by decide)⟩,
   (claim3_labeling_gates_partition partEnvLabelFail "test" "c" "hello-world" 1 60).2.2 (by decide)⟩

/-- C7: for an isolated zone in the fixed set, the target zone list of
every applied partition manifest is the fixed zone list minus the isolated
zone (the union of the two other zones), the direction is both, and the
selector value is the isolated zone itself. -/
theorem claim7_partition_target_zones (env : PartEnv) (rg cn ns : String) (z : Int) (du : Nat)
    (hz : z = 1 ∨ z = 2 ∨ z = 3) :
    ∀ s, PartCmd.applyChaos s ∈ (aks_container_network_partition env rg cn ns z du).cmds →
      s.direction = "both" ∧ s.isolatedZone = toString z ∧ s.namespaceName = ns ∧
      s.targetZones = (["1", "2", "3"] : List String).erase (toString z) ∧
      (z = 1 → s.targetZones = ["2", "3"]) ∧ (z = 2 → s.targetZones = ["1", "3"]) ∧
      (z = 3 → s.targetZones = ["1", "2"]) := by
  intro s hs
  obtain ⟨-, -, hseq⟩ := partition_apply_mem env rg cn ns z du s hs
  subst hseq
  refine ⟨rfl, rfl, rfl, rfl, ?_, ?_, ?_⟩
  · intro hz1
    subst hz1
    show (["1", "2", "3"] : List String).erase (toString (1 : Int)) = ["2", "3"]
    decide
  · intro hz1
    subst hz1
    show (["1", "2", "3"] : List String).erase (toString (2 : Int)) = ["1", "3"]
    decide
  · intro hz1
    subst hz1
    show (["1", "2", "3"] : List String).erase (toString (3 : Int)) = ["1", "2"]
    decide

/-- C7 witness: isolating zone 1 in the healthy two-pod world applies a
manifest with direction both and target zones 2 and 3. -/
theorem claim7_witness :
    (NetworkChaosSpec.mk "hello-world" "1" "both" ["2", "3"]).direction = "both" ∧
    (NetworkChaosSpec.mk "hello-world" "1" "both" ["2", "3"]).targetZones = ["2", "3"] :=
  ⟨(claim7_partition_target_zones partEnvOk "test" "c" "hello-world" 1 60 (Or.inl rfl)
      ⟨"hello-world", "1", "both", ["2", "3"]⟩ (by decide)).1,
   (claim7_partition_target_zones partEnvOk "test" "c" "hello-world" 1 60 (Or.inl rfl)
      ⟨"hello-world", "1", "both", ["2", "3"]⟩ (by decide)).2.2.2.2.1 rfl⟩

/-- C10: an isolated zone whose string form is not 1, 2, or 3 makes the
experiment return false (the list removal raises, caught by the handler)
and the partition apply command is never issued, even though zone labels
may already have been applied. -/
theorem claim10_invalid_zone (env : PartEnv) (rg cn ns : String) (z : Int) (du : Nat)
    (hz : toString z ∉ (["1", "2", "3"] : List String)) :
    (aks_container_network_partition env rg cn ns z du).result = false ∧
    hasApplyChaos (aks_container_network_partition env rg cn ns z du).cmds = false := by
  by_cases hdn : (labelLoop env.labelCode (podLines env) []).2 = .done
  · cases hcr : env.creds with
    | false =>
      simp [aks_container_network_partition, hcr, PartRun.cmds, PartRun.result, Outcome.toBool,
        hasApplyChaos]
    | true =>
    cases hku : env.kubectl with
    | false =>
      simp [aks_container_network_partition, hcr, hku, PartRun.cmds, PartRun.result,
        Outcome.toBool, hasApplyChaos]
    | true =>
    cases hhe : env.helm with
    | false =>
      simp [aks_container_network_partition, hcr, hku, hhe, PartRun.cmds, PartRun.result,
        Outcome.toBool, hasApplyChaos]
    | true =>
    rcases hL : labelLoop env.labelCode (podLines env) [] with ⟨tr, ex⟩
    have htr : ∀ q ∈ tr, ∃ pn zz, q = (0, PartCmd.label pn zz) := by
      intro q hq
      exact labelLoop_nil_labels env.labelCode (podLines env) q (by rw [hL]; exact hq)
    rw [hL] at hdn
    cases ex with
    | failedPod => simp at hdn
    | exc => simp at hdn
    | done =>
      have hR : pyRemove ["1", "2", "3"] (toString z) = .error () := by
        simp [pyRemove, hz]
      constructor
      · simp [aks_container_network_partition, hcr, hku, hhe, hL, hR, PartRun.result,
          Outcome.toBool]
      · have hc : (aks_container_network_partition env rg cn ns z du).cmds = tr.map Prod.snd := by
          simp [aks_container_network_partition, hcr, hku, hhe, hL, hR, PartRun.cmds]
        rw [hc]
        exact no_apply_of_labels tr htr
  · exact partition_not_done env rg cn ns z du hdn

/-- C10 witness: isolating zone 4 in the healthy two-pod world returns
false and never applies the policy, while the trace shows the two pods had
already been labelled. -/
theorem claim10_witness :
    (aks_container_network_partition partEnvOk "test" "c" "hello-world" 4 60).result = false ∧
    hasApplyChaos (aks_container_network_partition partEnvOk "test" "c" "hello-world" 4 60).cmds = false ∧
    (aks_container_network_partition partEnvOk "test" "c" "hello-world" 4 60).trace =
      [(0, .label "podA" "1"), (0, .label "podB" "2")] :=
  ⟨(claim10_invalid_zone partEnvOk "test" "c" "hello-world" 4 60 (by decide)).1,
   (claim10_invalid_zone partEnvOk "test" "c" "hello-world" 4 60 (by decide)).2,
   by decide⟩

/- ----------------------------------------------------------------
Lemmas about aks_zone_down
---------------------------------------------------------------- -/

/-- Every command the node pool loop adds to its accumulator is the
deletion of the nonempty machine set of one of the listed pools. -/
theorem zoneLoop_mem (env : ZDEnv) (tz : String) :
    ∀ (pools : List Nodepool) (tr : List ZDCmd) (c : ZDCmd),
      c ∈ (zoneLoop env tz pools tr).1 →
      c ∈ tr ∨ ∃ np ∈ pools, c = ZDCmd.deleteMachines np.name (poolMachines env tz np) ∧
        poolMachines env tz np ≠ [] := by
  intro pools
  induction pools with
  | nil =>
    intro tr c hc
    exact Or.inl (by simpa [zoneLoop] using hc)
  | cons np rest ih =>
    intro tr c hc
    have hstep : zoneLoop env tz (np :: rest) tr =
        if (poolMachines env tz np).isEmpty then zoneLoop env tz rest tr
        else if env.deleteMachinesCode np.name ≠ 0 then
          (tr ++ [ZDCmd.deleteMachines np.name (poolMachines env tz np)], false)
        else zoneLoop env tz rest (tr ++ [ZDCmd.deleteMachines np.name (poolMachines env tz np)]) :=
      rfl
    rw [hstep] at hc
    by_cases hms : (poolMachines env tz np).isEmpty = true
    · rw [if_pos hms] at hc
      rcases ih _ c hc with h | ⟨np2, hnp2, he⟩
      · exact Or.inl h
      · exact Or.inr ⟨np2, List.mem_cons_of_mem _ hnp2, he⟩
    · have hne : poolMachines env tz np ≠ [] := by
        intro h0
        rw [h0] at hms
        simp at hms
      rw [if_neg hms] at hc
      by_cases hdc : env.deleteMachinesCode np.name ≠ 0
      · rw [if_pos hdc] at hc
        rcases List.mem_append.1 hc with h | h
        · exact Or.inl h
        · simp only [List.mem_singleton] at h
          exact Or.inr ⟨np, List.mem_cons_self _ _, h, hne⟩
      · rw [if_neg hdc] at hc
        rcases ih _ c hc with h | ⟨np2, hnp2, he⟩
        · rcases List.mem_append.1 h with h | h
          · exact Or.inl h
          · simp only [List.mem_singleton] at h
            exact Or.inr ⟨np, List.mem_cons_self _ _, h, hne⟩
        · exact Or.inr ⟨np2, List.mem_cons_of_mem _ hnp2, he⟩

/-- When no listed pool has machines in the target zone, the loop issues
nothing and reports success. -/
theorem zoneLoop_all_empty (env : ZDEnv) (tz : String) :
    ∀ (pools : List Nodepool) (tr : List ZDCmd),
      (∀ np ∈ pools, poolMachines env tz np = []) →
      zoneLoop env tz pools tr = (tr, true) := by
  intro pools
  induction pools with
  | nil => intro tr _; simp [zoneLoop]
  | cons np rest ih =>
    intro tr h
    have h0 : poolMachines env tz np = [] := h np (List.mem_cons_self _ _)
    have hemp : (poolMachines env tz np).isEmpty = true := by simp [h0]
    have hstep : zoneLoop env tz (np :: rest) tr =
        if (poolMachines env tz np).isEmpty then zoneLoop env tz rest tr
        else if env.deleteMachinesCode np.name ≠ 0 then
          (tr ++ [ZDCmd.deleteMachines np.name (poolMachines env tz np)], false)
        else zoneLoop env tz rest (tr ++ [ZDCmd.deleteMachines np.name (poolMachines env tz np)]) :=
      rfl
    rw [hstep, if_pos hemp]
    exact ih tr (fun np2 hnp2 => h np2 (List.mem_cons_of_mem _ hnp2))

/-- C4: aks_zone_down never issues a delete-machines command with an empty
machine list (a zero-instance pool is skipped), and when every pool has
zero machines in the target zone the run issues nothing and still returns
true. -/
theorem claim4_zero_instance_pools_skipped (env : ZDEnv) (rg cn tz : String) :
    noEmptyDelete (aks_zone_down env rg cn tz).trace = true ∧
    (env.showCluster.code = 0 → env.listNodepoolsCode = 0 →
      ∀ pools, env.nodepoolsParsed = some pools →
        (∀ np ∈ pools, poolMachines env tz np = []) →
        aks_zone_down env rg cn tz = ⟨.ok true, []⟩) := by
  constructor
  · by_cases h1 : env.showCluster.code ≠ 0
    · simp [aks_zone_down, h1, noEmptyDelete]
    · by_cases h2 : env.listNodepoolsCode ≠ 0
      · simp [aks_zone_down, h1, h2, noEmptyDelete]
      · cases hP : env.nodepoolsParsed with
        | none => simp [aks_zone_down, h1, h2, hP, noEmptyDelete]
        | some pools =>
          rcases hL : zoneLoop env tz pools [] with ⟨tr, b⟩
          have hne : noEmptyDelete tr = true := by
            rw [noEmptyDelete, List.all_eq_true]
            intro c hc
            have hmem : c ∈ (zoneLoop env tz pools []).1 := by rw [hL]; exact hc
            rcases zoneLoop_mem env tz pools [] c hmem with h | ⟨np, hnp, rfl, hnem⟩
            · simp at h
            · simpa [List.isEmpty_eq_true] using hnem
          cases b <;> simp [aks_zone_down, h1, h2, hP, hL, hne]
  · intro hc1 hc2 pools hP hall
    have hz := zoneLoop_all_empty env tz pools [] hall
    simp [aks_zone_down, hc1, hc2, hP, hz]

/-- C4 witness: in the world with one pool and no instance in zone 1, no
delete is issued and the run succeeds. -/
theorem claim4_witness :
    noEmptyDelete (aks_zone_down zdEnvEmpty "test" "c" "1").trace = true ∧
    aks_zone_down zdEnvEmpty "test" "c" "1" = ⟨.ok true, []⟩ :=
  ⟨(claim4_zero_instance_pools_skipped zdEnvEmpty "test" "c" "1").1,
   (claim4_zero_instance_pools_skipped zdEnvEmpty "test" "c" "1").2 (by decide) (by decide)
     [⟨"pool1", false⟩] (by decide) (by decide)⟩

/-- C5 counterexample: with zero usable targets in the target zone across
all node pools, aks_zone_down returns true with an empty trace, not the
failure the claim requires. -/
theorem claim5_zero_targets_cex :
    poolMachines zdEnvEmpty "1" ⟨"pool1", false⟩ = [] ∧
    aks_zone_down zdEnvEmpty "test" "niels-aks-test-1" "1" =
      { outcome := .ok true, trace := [] } := by
  decide

/-- C5 as amended: when topology discovery leaves zero usable targets in
the target zone, each pool is skipped with a logged warning and the whole
experiment still returns true (zero targets is non-fatal for the
zone-deletion driver). -/
theorem claim5_zero_targets_success (env : ZDEnv) (rg cn tz : String) (pools : List Nodepool)
    (h1 : env.showCluster.code = 0) (h2 : env.listNodepoolsCode = 0)
    (h3 : env.nodepoolsParsed = some pools)
    (h4 : ∀ np ∈ pools, poolMachines env tz np = []) :
    (aks_zone_down env rg cn tz).result = true := by
  have hz := zoneLoop_all_empty env tz pools [] h4
  simp [aks_zone_down, h1, h2, h3, hz, ZDRun.result, Outcome.toBool]

/-- C5 witness: the amended statement in the concrete empty-zone world. -/
theorem claim5_witness : (aks_zone_down zdEnvEmpty "rg" "cl" "1").result = true :=
  claim5_zero_targets_success zdEnvEmpty "rg" "cl" "1" [⟨"pool1", false⟩]
    (by decide) (by decide) (by decide) (by decide)

/-- C8 counterexample: the pod/zone discovery query reports a non-zero
status, yet the partition experiment proceeds, labels the pod, applies the
partition policy and returns true, instead of aborting before injection. -/
theorem claim8_ignored_discovery_status_cex :
    partEnvBadQuery.podsResp.code = 1 ∧
    aks_container_network_partition partEnvBadQuery "test" "c" "hello-world" 1 60 =
      { outcome := .ok true,
        trace := [(0, .label "podA" "1"),
          (0, .applyChaos ⟨"hello-world", "1", "both", ["2", "3"]⟩), (60, .deleteChaos)] } := by
  decide

/-- C8 as amended: a failing node resource group query or node pool listing
aborts aks_zone_down with false before any fault is injected, but the
status of the pod/zone discovery query of the partition experiment is
ignored: the run is identical whatever that status is. -/
theorem claim8_discovery_abort_amended (ze : ZDEnv) (rg cn tz : String) :
    (ze.showCluster.code ≠ 0 → aks_zone_down ze rg cn tz = ⟨.ok false, []⟩) ∧
    (ze.showCluster.code = 0 → ze.listNodepoolsCode ≠ 0 →
      aks_zone_down ze rg cn tz = ⟨.ok false, []⟩) ∧
    ∀ (pe : PartEnv) (prg pcn pns : String) (pz : Int) (pdu : Nat) (c : Int),
      aks_container_network_partition { pe with podsResp := ⟨pe.podsResp.out, c⟩ } prg pcn pns pz pdu =
        aks_container_network_partition pe prg pcn pns pz pdu := by
  refine ⟨?_, ?_, ?_⟩
  · intro h
    simp [aks_zone_down, h]
  · intro h1 h2
    simp [aks_zone_down, h1, h2]
  · intro pe prg pcn pns pz pdu c
    rfl

/-- C8 witness: the amended statement in the two concrete aborting worlds. -/
theorem claim8_witness :
    aks_zone_down zdEnvClusterFail "test" "c" "1" = ⟨.ok false, []⟩ ∧
    aks_zone_down zdEnvNodepoolFail "test" "c" "1" = ⟨.ok false, []⟩ :=
  ⟨(claim8_discovery_abort_amended zdEnvClusterFail "test" "c" "1").1 (by decide),
   (claim8_discovery_abort_amended zdEnvNodepoolFail "test" "c" "1").2.1 (by decide) (by decide)⟩

/- ----------------------------------------------------------------
Timing and rollback-count lemmas
---------------------------------------------------------------- -/

/-- Recognizer for the deny-rule create command. -/
def isCreateRuleCmd : BNACmd → Bool
  | .createRule _ _ _ _ => true
  | _ => false

/-- Each event of the continuation after NSG resolution is either an
accumulated event or one of the four commands it can append: the rule
creation at time 0 and the rule deletion, disassociate and NSG delete at
the hold duration. -/
theorem afterNsg_mem_superset (env : BNAEnv) (rn nn : String) (wc : Bool) (du : Nat)
    (tr : List (Nat × BNACmd)) :
    ∀ p ∈ (afterNsg env rn nn wc du tr).trace,
      p ∈ tr ∨
      p = (0, BNACmd.createRule nn rn (pyStrip env.showSrcAddr.out) (pyStrip env.showDstAddr.out)) ∨
      p = (du, BNACmd.deleteRule nn rn) ∨ p = (du, BNACmd.disassociateNsg) ∨
      p = (du, BNACmd.deleteNsg nn) := by
  intro p hp
  by_cases h1 : env.showSrcAddr.code ≠ 0 ∨ env.showDstAddr.code ≠ 0 <;>
  by_cases h2 : env.createRuleCode ≠ 0 <;>
  by_cases h3 : env.deleteRuleCode ≠ 0 <;>
  cases wc <;>
  by_cases h4 : env.disassociateCode ≠ 0 <;>
  by_cases h5 : env.deleteNsgCode ≠ 0 <;>
  simp_all [afterNsg] <;>
  tauto

/-- When the rule creation is reached and succeeds, the continuation issues
the deny-rule deletion exactly once, whatever happens afterwards. -/
theorem afterNsg_count_delete (env : BNAEnv) (rn nn : String) (wc : Bool) (du : Nat)
    (tr : List (Nat × BNACmd))
    (h1 : ¬(env.showSrcAddr.code ≠ 0 ∨ env.showDstAddr.code ≠ 0))
    (h2 : env.createRuleCode = 0)
    (htr : (tr.map Prod.snd).countP isDeleteRule = 0) :
    (afterNsg env rn nn wc du tr).cmds.countP isDeleteRule = 1 := by
  by_cases h3 : env.deleteRuleCode ≠ 0 <;> cases wc <;>
  by_cases h4 : env.disassociateCode ≠ 0 <;> by_cases h5 : env.deleteNsgCode ≠ 0 <;>
  simp [afterNsg, h1, h2, h3, h4, h5, BNARun.cmds, List.countP_append, List.countP_cons,
    isDeleteRule, htr]

/-- When the address lookups fail, the continuation issues nothing beyond
the accumulated events. -/
theorem afterNsg_addr_fail (env : BNAEnv) (rn nn : String) (wc : Bool) (du : Nat)
    (tr : List (Nat × BNACmd)) (h1 : env.showSrcAddr.code ≠ 0 ∨ env.showDstAddr.code ≠ 0) :
    (afterNsg env rn nn wc du tr).trace = tr := by
  simp [afterNsg, h1]

/-- When the rule creation fails, the continuation records only the
attempted rule creation beyond the accumulated events. -/
theorem afterNsg_rule_fail (env : BNAEnv) (rn nn : String) (wc : Bool) (du : Nat)
    (tr : List (Nat × BNACmd)) (h1 : ¬(env.showSrcAddr.code ≠ 0 ∨ env.showDstAddr.code ≠ 0))
    (h2 : env.createRuleCode ≠ 0) :
    (afterNsg env rn nn wc du tr).trace =
      tr ++ [(0, BNACmd.createRule nn rn (pyStrip env.showSrcAddr.out)
        (pyStrip env.showDstAddr.out))] := by
  simp [afterNsg, h1, h2]

/-- Each event of a block_network_access run is an NSG create or associate
at time 0, a rule creation at time 0, or a rule deletion, disassociate or
NSG delete at the hold duration. -/
theorem block_trace_superset (env : BNAEnv) (rg vn ss sd : String) (du : Nat) :
    ∀ p ∈ (block_network_access env rg vn ss sd du).trace,
      (∃ n, p = (0, BNACmd.createNsg n)) ∨ (∃ n, p = (0, BNACmd.associateNsg n)) ∨
      (∃ a b c2 d, p = (0, BNACmd.createRule a b c2 d)) ∨
      (∃ a b, p = (du, BNACmd.deleteRule a b)) ∨ p = (du, BNACmd.disassociateNsg) ∨
      (∃ n, p = (du, BNACmd.deleteNsg n)) := by
  intro p hp
  by_cases h0 : env.getNsg.code ≠ 0 ∨ pyStrip env.getNsg.out = ""
  · by_cases hc1 : env.createNsgCode ≠ 0
    · simp [block_network_access, h0, hc1] at hp
      exact Or.inl ⟨_, hp⟩
    · by_cases hc2 : env.associateCode ≠ 0
      · simp only [block_network_access] at hp
        rw [if_pos h0, if_neg hc1, if_pos hc2] at hp
        simp at hp
        rcases hp with hp | hp
        · exact Or.inl ⟨_, hp⟩
        · exact Or.inr (Or.inl ⟨_, hp⟩)
      · have hb : block_network_access env rg vn ss sd du =
            afterNsg env ("block-" ++ ss ++ "-to-" ++ sd ++ "-rule") (ss ++ "-chaostest-nsg")
              true du
              [(0, .createNsg (ss ++ "-chaostest-nsg")),
               (0, .associateNsg (ss ++ "-chaostest-nsg"))] := by
          simp [block_network_access, h0, hc1, hc2]
        rw [hb] at hp
        rcases afterNsg_mem_superset env _ _ true du _ p hp with h | h | h | h | h
        · simp only [List.mem_cons, List.not_mem_nil, or_false] at h
          rcases h with h | h
          · exact Or.inl ⟨_, h⟩
          · exact Or.inr (Or.inl ⟨_, h⟩)
        · exact Or.inr (Or.inr (Or.inl ⟨_, _, _, _, h⟩))
        · exact Or.inr (Or.inr (Or.inr (Or.inl ⟨_, _, h⟩)))
        · exact Or.inr (Or.inr (Or.inr (Or.inr (Or.inl h))))
        · exact Or.inr (Or.inr (Or.inr (Or.inr (Or.inr ⟨_, h⟩))))
  · have hb : block_network_access env rg vn ss sd du =
        afterNsg env ("block-" ++ ss ++ "-to-" ++ sd ++ "-rule")
          (if env.getNsg.out ≠ "" then (pySplit '/' (pyStrip env.getNsg.out)).getLastD "" else "")
          false du [] := by
      simp [block_network_access, h0]
    rw [hb] at hp
    rcases afterNsg_mem_superset env _ _ false du _ p hp with h | h | h | h | h
    · simp at h
    · exact Or.inr (Or.inr (Or.inl ⟨_, _, _, _, h⟩))
    · exact Or.inr (Or.inr (Or.inr (Or.inl ⟨_, _, h⟩)))
    · exact Or.inr (Or.inr (Or.inr (Or.inr (Or.inl h))))
    · exact Or.inr (Or.inr (Or.inr (Or.inr (Or.inr ⟨_, h⟩))))

/-- C6: in both experiments with a rollback step, the rollback command is
issued only at the hold duration on the virtual clock while injection
happens at time 0 (so rollback never precedes the elapsed hold), and once
the fault is active (the injection command was issued and its status was
zero) the rollback command is issued exactly once before returning. -/
theorem claim6_hold_before_rollback (be : BNAEnv) (rg vn ss sd : String) (du : Nat)
    (pe : PartEnv) (prg pcn pns : String) (pz : Int) (pdu : Nat) :
    (∀ t a b, ((t, BNACmd.deleteRule a b) ∈ (block_network_access be rg vn ss sd du).trace) →
      du ≤ t) ∧
    (∀ t a b c2 d, ((t, BNACmd.createRule a b c2 d) ∈
      (block_network_access be rg vn ss sd du).trace) → t = 0) ∧
    (hasCreateRule (block_network_access be rg vn ss sd du).cmds = true →
      be.createRuleCode = 0 →
      (block_network_access be rg vn ss sd du).cmds.countP isDeleteRule = 1) ∧
    (∀ t, ((t, PartCmd.deleteChaos) ∈
      (aks_container_network_partition pe prg pcn pns pz pdu).trace) → pdu ≤ t) ∧
    (∀ t s, ((t, PartCmd.applyChaos s) ∈
      (aks_container_network_partition pe prg pcn pns pz pdu).trace) → t = 0) ∧
    (hasApplyChaos (aks_container_network_partition pe prg pcn pns pz pdu).cmds = true →
      pe.applyCode = 0 →
      (aks_container_network_partition pe prg pcn pns pz pdu).cmds.countP isDeleteChaos = 1) := by
  refine ⟨?_, ?_, ?_, ?_, ?_, ?_⟩
  · intro t a b hmem
    rcases block_trace_superset be rg vn ss sd du _ hmem with
      ⟨n, he⟩ | ⟨n, he⟩ | ⟨a2, b2, c2, d2, he⟩ | ⟨a2, b2, he⟩ | he | ⟨n, he⟩ <;>
      simp [Prod.ext_iff] at he
    exact he.1.ge
  · intro t a b c2 d hmem
    rcases block_trace_superset be rg vn ss sd du _ hmem with
      ⟨n, he⟩ | ⟨n, he⟩ | ⟨a2, b2, c3, d2, he⟩ | ⟨a2, b2, he⟩ | he | ⟨n, he⟩ <;>
      simp [Prod.ext_iff] at he
    exact he.1
  · intro hha hcr
    by_cases h0 : be.getNsg.code ≠ 0 ∨ pyStrip be.getNsg.out = ""
    · by_cases hc1 : be.createNsgCode ≠ 0
      · simp [block_network_access, h0, hc1, BNARun.cmds, hasCreateRule] at hha
      · by_cases hc2 : be.associateCode ≠ 0
        · simp only [block_network_access] at hha
          rw [if_pos h0, if_neg hc1, if_pos hc2] at hha
          simp [BNARun.cmds, hasCreateRule] at hha
        · have hb : block_network_access be rg vn ss sd du =
              afterNsg be ("block-" ++ ss ++ "-to-" ++ sd ++ "-rule") (ss ++ "-chaostest-nsg")
                true du
                [(0, .createNsg (ss ++ "-chaostest-nsg")),
                 (0, .associateNsg (ss ++ "-chaostest-nsg"))] := by
            simp [block_network_access, h0, hc1, hc2]
          rw [hb] at hha ⊢
          by_cases h1 : be.showSrcAddr.code ≠ 0 ∨ be.showDstAddr.code ≠ 0
          · rw [BNARun.cmds, afterNsg_addr_fail be _ _ true du _ h1] at hha
            simp [hasCreateRule] at hha
          · exact afterNsg_count_delete be _ _ true du _ h1 hcr
              (by simp [List.countP_cons, isDeleteRule])
    · have hb : block_network_access be rg vn ss sd du =
          afterNsg be ("block-" ++ ss ++ "-to-" ++ sd ++ "-rule")
            (if be.getNsg.out ≠ "" then (pySplit '/' (pyStrip be.getNsg.out)).getLastD "" else "")
            false du [] := by
        simp [block_network_access, h0]
      rw [hb] at hha ⊢
      by_cases h1 : be.showSrcAddr.code ≠ 0 ∨ be.showDstAddr.code ≠ 0
      · rw [BNARun.cmds, afterNsg_addr_fail be _ _ false du _ h1] at hha
        simp [hasCreateRule] at hha
      · exact afterNsg_count_delete be _ _ false du _ h1 hcr (by simp)
  · intro t hmem
    rcases partition_trace_shape pe prg pcn pns pz pdu _ hmem with
      ⟨pn, zz, he⟩ | ⟨s, he⟩ | he <;> simp [Prod.ext_iff] at he
    exact he.ge
  · intro t s hmem
    rcases partition_trace_shape pe prg pcn pns pz pdu _ hmem with
      ⟨pn, zz, he⟩ | ⟨s2, he⟩ | he <;> simp [Prod.ext_iff] at he
    exact he.1
  · intro hha hac
    rcases exists_of_hasApply _ hha with ⟨s, hs⟩
    obtain ⟨hd, hmz, -⟩ := partition_apply_mem pe prg pcn pns pz pdu s hs
    cases hcr : pe.creds with
    | false => simp [aks_container_network_partition, hcr, PartRun.cmds] at hs
    | true =>
    cases hku : pe.kubectl with
    | false => simp [aks_container_network_partition, hcr, hku, PartRun.cmds] at hs
    | true =>
    cases hhe : pe.helm with
    | false => simp [aks_container_network_partition, hcr, hku, hhe, PartRun.cmds] at hs
    | true =>
    rcases hL : labelLoop pe.labelCode (podLines pe) [] with ⟨tr, ex⟩
    have htr : ∀ q ∈ tr, ∃ pn zz, q = (0, PartCmd.label pn zz) := by
      intro q hq
      exact labelLoop_nil_labels pe.labelCode (podLines pe) q (by rw [hL]; exact hq)
    rw [hL] at hd
    simp only at hd
    subst hd
    have hR : pyRemove ["1", "2", "3"] (toString pz) =
        .ok ((["1", "2", "3"] : List String).erase (toString pz)) := by
      simp [pyRemove, hmz]
    rw [PartRun.cmds, partition_done_ok_shape pe prg pcn pns pz pdu tr _ hcr hku hhe hL hR]
    have h0 := no_deleteChaos_of_labels tr htr
    simp [hac, List.map_append, List.countP_append, List.countP_cons, isDeleteChaos, h0]

/-- C6 witness: in the concrete all-success worlds the rollback command
appears exactly once in each trace. -/
theorem claim6_witness :
    (block_network_access envAllOkNew "test" "v" "SubnetA" "SubnetB" 30).cmds.countP
      isDeleteRule = 1 ∧
    (aks_container_network_partition partEnvOk "test" "c" "hello-world" 1 60).cmds.countP
      isDeleteChaos = 1 :=
  ⟨(claim6_hold_before_rollback envAllOkNew "test" "v" "SubnetA" "SubnetB" 30
      partEnvOk "test" "c" "hello-world" 1 60).2.2.1 (by decide) (by decide),
   (claim6_hold_before_rollback envAllOkNew "test" "v" "SubnetA" "SubnetB" 30
      partEnvOk "test" "c" "hello-world" 1 60).2.2.2.2.2 (by decide) (by decide)⟩

/-- C9: every experiment entry point yields a boolean at its public
boundary for every environment and argument vector, and every modelled
exception path inside a try block (unparsable JSON, malformed pod line,
failing zone removal) reduces to the boolean False. -/
theorem claim9_boolean_boundary (be : BNAEnv) (a1 a2 a3 a4 : String) (d1 : Nat)
    (ze : ZDEnv) (b1 b2 b3 : String) (pe : PartEnv) (c1 c2 c3 : String) (cz : Int) (cd : Nat)
    (ge : PGEnv) (e1 e2 : String) (ef : Bool) (ke : KPEnv) (f1 f2 f3 f4 : String) (fg : Bool) :
    ((block_network_access be a1 a2 a3 a4 d1).ok = true ∨
      (block_network_access be a1 a2 a3 a4 d1).ok = false) ∧
    ((aks_zone_down ze b1 b2 b3).result = true ∨ (aks_zone_down ze b1 b2 b3).result = false) ∧
    ((aks_zone_down ze b1 b2 b3).outcome = .exc → (aks_zone_down ze b1 b2 b3).result = false) ∧
    ((aks_container_network_partition pe c1 c2 c3 cz cd).result = true ∨
      (aks_container_network_partition pe c1 c2 c3 cz cd).result = false) ∧
    ((aks_container_network_partition pe c1 c2 c3 cz cd).outcome = .exc →
      (aks_container_network_partition pe c1 c2 c3 cz cd).result = false) ∧
    ((postgres_failover ge e1 e2 ef).toBool = true ∨
      (postgres_failover ge e1 e2 ef).toBool = false) ∧
    (postgres_failover ge e1 e2 ef = .exc → (postgres_failover ge e1 e2 ef).toBool = false) ∧
    (aks_kill_pods ke f1 f2 f3 f4 fg = true ∨ aks_kill_pods ke f1 f2 f3 f4 fg = false) := by
  refine ⟨?_, ?_, ?_, ?_, ?_, ?_, ?_, ?_⟩
  · cases (block_network_access be a1 a2 a3 a4 d1).ok <;> simp
  · cases (aks_zone_down ze b1 b2 b3).result <;> simp
  · intro h
    simp [ZDRun.result, h, Outcome.toBool]
  · cases (aks_container_network_partition pe c1 c2 c3 cz cd).result <;> simp
  · intro h
    simp [PartRun.result, h, Outcome.toBool]
  · cases (postgres_failover ge e1 e2 ef).toBool <;> simp
  · intro h
    rw [h]
    rfl
  · cases (aks_kill_pods ke f1 f2 f3 f4 fg) <;> simp

/-- C9 witness: three concrete exception paths, one per function in which
one is reachable (bad node pool JSON, empty pod listing, bad post-failover
JSON), all reduce to a False return. -/
theorem claim9_witness :
    (aks_zone_down zdEnvExc "test" "c" "1").result = false ∧
    (aks_container_network_partition partEnvExcPods "test" "c" "chaos-test" 1 60).result = false ∧
    (postgres_failover pgEnvExc "test" "niels-test-pgdb" true).toBool = false :=
  ⟨(claim9_boolean_boundary envAllOkNew "a" "b" "c" "d" 1 zdEnvExc "test" "c" "1"
      partEnvExcPods "test" "c" "chaos-test" 1 60 pgEnvExc "test" "niels-test-pgdb" true
      ⟨true, true, 0⟩ "a" "b" "c" "d" true).2.2.1 (by decide),
   (claim9_boolean_boundary envAllOkNew "a" "b" "c" "d" 1 zdEnvExc "test" "c" "1"
      partEnvExcPods "test" "c" "chaos-test" 1 60 pgEnvExc "test" "niels-test-pgdb" true
      ⟨true, true, 0⟩ "a" "b" "c" "d" true).2.2.2.2.1 (by decide),
   (claim9_boolean_boundary envAllOkNew "a" "b" "c" "d" 1 zdEnvExc "test" "c" "1"
      partEnvExcPods "test" "c" "chaos-test" 1 60 pgEnvExc "test" "niels-test-pgdb" true
      ⟨true, true, 0⟩ "a" "b" "c" "d" true).2.2.2.2.2.2.1 (by decide)⟩

end Chaos
